import Mathlib

/-!
Verification of the Smart Plant Analysis Service (`analysis-service`).

The service is embedded shallowly:
* Python dict/list/str/number values are modelled by the inductive `Val`
  (a JSON-like value tree; floats such as `0.72` appear only as literals,
  never in arithmetic, so they are modelled by exact rationals).
* `datetime.utcnow().replace(microsecond=0)` is modelled by the structure
  `DateTime` carrying whole-second fields; each call of `_now_iso` in the
  Python source becomes an explicit `DateTime` argument, so
  `run_mock_analysis` takes the two timestamps that its two `_now_iso()`
  calls would observe.
* Python truthiness of an `Optional[str]` field (`None` and `""` are falsy)
  is the function `truthy`.
* Raising is modelled with `Except`: `validate_payload` raises `ValueError`,
  `analyze_image` raises `NotImplementedError`; each error carries its
  message string.
* The `logger.info(..., extra={...})` record emitted by `analyze_image`
  is modelled by the structure `LogRecord` returned alongside the result.
-/

/-- A Python/JSON value: string, integer, decimal number, list, or dict
(association list of string keys, in insertion order, as Python dict
literals preserve). -/
inductive Val where
  | vStr : String → Val
  | vNat : Nat → Val
  | vRat : ℚ → Val
  | vArr : List Val → Val
  | vObj : List (String × Val) → Val

/-- Dict key access: `v[k]` on a dict, `none` otherwise. -/
def Val.lookup : Val → String → Option Val
  | .vObj kvs, k => List.lookup k kvs
  | _, _ => none

/-- Two-level dict access `v[k1][k2]`. -/
def Val.lookup2 (v : Val) (k1 k2 : String) : Option Val :=
  match v.lookup k1 with
  | some w => w.lookup k2
  | none => none

/-- The keys of a dict, in order (Python `dict.keys()`). -/
def Val.keys : Val → List String
  | .vObj kvs => kvs.map Prod.fst
  | _ => []

/-- A UTC wall-clock instant at whole-second granularity, as observed by
`datetime.utcnow().replace(microsecond=0)` in the source. Python's
`datetime` guarantees `1 ≤ year ≤ 9999`. -/
structure DateTime where
  year : Nat
  month : Nat
  day : Nat
  hour : Nat
  minute : Nat
  second : Nat

/-- The ASCII digit character for `n % 10` (the digits emitted by C-style
`%02d`/`%04d` zero padding used by `datetime.isoformat`). -/
def digitChar (n : Nat) : Char := Char.ofNat (48 + n % 10)

/-- Two-digit zero-padded rendering (`%02d`), for field values below 100. -/
def pad2 (n : Nat) : String := String.mk [digitChar (n / 10), digitChar n]

/-- Four-digit zero-padded rendering (`%04d`), for years up to 9999. -/
def pad4 (n : Nat) : String :=
  String.mk [digitChar (n / 1000), digitChar (n / 100), digitChar (n / 10), digitChar n]

/-- `_now_iso` from `app/services/analyzer.py`:
`datetime.utcnow().replace(microsecond=0).isoformat() + "Z"`, with the
observed instant made explicit. `isoformat` on a microsecond-free datetime
prints `YYYY-MM-DDTHH:MM:SS`. -/
def now_iso (t : DateTime) : String :=
  pad4 t.year ++ "-" ++ pad2 t.month ++ "-" ++ pad2 t.day ++ "T" ++
    pad2 t.hour ++ ":" ++ pad2 t.minute ++ ":" ++ pad2 t.second ++ "Z"

/-- Python truthiness of an `Optional[str]`: `None` and `""` are falsy. -/
def truthy : Option String → Bool
  | none => false
  | some s => !(s == "")

/-- Python `x or d` on an `Optional[str]`: the default when `x` is falsy. -/
def pyOr (p : Option String) (d : String) : String :=
  match p with
  | none => d
  | some s => if s == "" then d else s

/-- The diagnostic record `analyze_image` hands to
`logger.info("Received analysis request", extra={"hasUrl": ..., "hasBase64": ...})`:
a fixed message and two presence booleans, nothing else. -/
structure LogRecord where
  msg : String
  hasUrl : Bool
  hasBase64 : Bool

/-- `run_mock_analysis` from `app/services/analyzer.py`. `t1` is the instant
observed by the `_now_iso()` call producing `capturedAt`, `t2` the one
producing `createdAt` (the source calls `_now_iso()` twice). -/
def run_mock_analysis (plant_name : Option String) (t1 t2 : DateTime) : Val :=
  let detected_name := pyOr plant_name "Monstera Deliciosa"
  let recommendations : List Val :=
    [ .vObj [("id", .vStr "tip_water_adjust"),
             ("title", .vStr "ลดการรดน้ำ"),
             ("desc", .vStr "ลดความถี่ลงเหลือทุก 5 วัน")],
      .vObj [("id", .vStr "tip_light"),
             ("title", .vStr "เพิ่มแสงอ่อน"),
             ("desc", .vStr "ตั้งใกล้หน้าต่างกรองแสงในตอนเช้า")] ]
  .vObj
    [ ("id", .vStr "analysis_mock_001"),
      ("status", .vStr "completed"),
      ("plantName", .vStr detected_name),
      ("issues", .vArr [ .vObj [("code", .vStr "yellow_leaf"),
                                ("severity", .vStr "moderate"),
                                ("confidence", .vRat (72/100))] ]),
      ("score", .vRat (85/100)),
      ("recommendations", .vArr recommendations),
      ("weatherSnapshot", .vObj [("tempC", .vNat 33),
                                 ("humidity", .vNat 70),
                                 ("condition", .vStr "sunny"),
                                 ("capturedAt", .vStr (now_iso t1))]),
      ("createdAt", .vStr (now_iso t2)) ]

/-- `analyze_image` from `app/services/analyzer.py`. `mock` is
`settings.mock_analysis`; the returned pair is (emitted log record,
result-or-raised-error). On the mock path it calls `run_mock_analysis()`
with no override name. -/
def analyze_image (mock : Bool) (image_url image_base64 : Option String)
    (t1 t2 : DateTime) : LogRecord × Except String Val :=
  (⟨"Received analysis request", truthy image_url, truthy image_base64⟩,
   if mock then
     Except.ok (run_mock_analysis none t1 t2)
   else
     Except.error "Real model inference not yet implemented")

/-- `AnalyzeRequest.validate_payload` from `app/api/router.py`: raises
`ValueError` when both fields are falsy, otherwise returns `None`. -/
def validate_payload (imageUrl imageBase64 : Option String) : Except String Unit :=
  if !truthy imageUrl && !truthy imageBase64 then
    Except.error "Either imageUrl or imageBase64 must be provided"
  else
    Except.ok ()

/-- The `health` handler from `app/api/router.py`: a constant envelope
(it reads no state). -/
def health : Val :=
  .vObj [("data", .vObj [("status", .vStr "ok")]),
         ("meta", .vObj []),
         ("errors", .vArr [])]

/-- The field names of the `AnalyzeResponse` pydantic model in
`app/api/router.py`, in declaration order. -/
def AnalyzeResponseFields : List String :=
  ["id", "status", "plantName", "issues", "score", "recommendations",
   "weatherSnapshot", "createdAt"]

/-- Whether a value is a dict (pydantic type `dict`). -/
def Val.isObj : Val → Bool
  | .vObj _ => true
  | _ => false

/-- Whether a value is a string (pydantic type `str`). -/
def Val.isStr : Val → Bool
  | .vStr _ => true
  | _ => false

/-- Whether a value is numeric (acceptable for pydantic type `float`). -/
def Val.isNum : Val → Bool
  | .vNat _ => true
  | .vRat _ => true
  | _ => false

/-- Whether a value is a list of dicts (the pydantic list-of-dict type). -/
def Val.isArrObj : Val → Bool
  | .vArr vs => vs.all Val.isObj
  | _ => false

/-- Whether field `k` of dict `v` exists and satisfies `p` — the check
pydantic performs per declared field of `AnalyzeResponse`. -/
def fieldIs (v : Val) (k : String) (p : Val → Bool) : Bool :=
  match v.lookup k with
  | some w => p w
  | none => false

/-- Whether `AnalyzeResponse(**v)` succeeds: `v` is a dict whose key set is
exactly the declared fields (keyword expansion of an extra key, or a
missing required field, both fail) and whose field values fit the declared
types. -/
def analyzeResponseAccepts (v : Val) : Bool :=
  v.keys == AnalyzeResponseFields &&
  fieldIs v "id" Val.isStr &&
  fieldIs v "status" Val.isStr &&
  fieldIs v "plantName" Val.isStr &&
  fieldIs v "issues" Val.isArrObj &&
  fieldIs v "score" Val.isNum &&
  fieldIs v "recommendations" Val.isArrObj &&
  fieldIs v "weatherSnapshot" Val.isObj &&
  fieldIs v "createdAt" Val.isStr

/-- The per-entry key lists of the `recommendations` field of an analysis
result (`none` when that field is absent or not a list). -/
def recKeys (v : Val) : Option (List (List String)) :=
  match v.lookup "recommendations" with
  | some (.vArr rs) => some (rs.map Val.keys)
  | _ => none

/-- Blank out the `capturedAt` value inside a weather-snapshot dict. -/
def stripCaptured (kv : String × Val) : String × Val :=
  if kv.1 == "capturedAt" then (kv.1, Val.vStr "") else kv

/-- Blank out a top-level timestamp-bearing entry of an analysis result:
the `createdAt` value, and the `capturedAt` value inside
`weatherSnapshot`. -/
def stripEntry : String × Val → String × Val
  | ("createdAt", _) => ("createdAt", Val.vStr "")
  | ("weatherSnapshot", .vObj ws) => ("weatherSnapshot", Val.vObj (ws.map stripCaptured))
  | kv => kv

/-- An analysis result with its two timestamp fields
(`weatherSnapshot.capturedAt` and `createdAt`) blanked out; everything
else is kept byte-identical. -/
def stripTimes (v : Val) : Val :=
  match v with
  | .vObj kvs => .vObj (kvs.map stripEntry)
  | w => w

/-- Whether a string has the exact shape `YYYY-MM-DDTHH:MM:SSZ`: twenty
characters, ASCII digits in the date/time positions, literal separators
`-`, `T`, `:` and a trailing `Z`, no fractional seconds. -/
def isIsoZ (s : String) : Bool :=
  match s.toList with
  | [y1, y2, y3, y4, '-', o1, o2, '-', d1, d2, 'T',
     h1, h2, ':', n1, n2, ':', s1, s2, 'Z'] =>
      y1.isDigit && y2.isDigit && y3.isDigit && y4.isDigit &&
      o1.isDigit && o2.isDigit && d1.isDigit && d2.isDigit &&
      h1.isDigit && h2.isDigit && n1.isDigit && n2.isDigit &&
      s1.isDigit && s2.isDigit
  | _ => false

/-- Every digit character emitted by the zero-padded rendering is an ASCII
digit. -/
theorem digitChar_isDigit (n : Nat) : (digitChar n).isDigit = true := by
  show (Char.ofNat (48 + n % 10)).isDigit = true
  have h : n % 10 < 10 := Nat.mod_lt _ (by norm_num)
  generalize n % 10 = m at h
  interval_cases m <;> decide

/-- The string produced by `now_iso` always has the shape
`YYYY-MM-DDTHH:MM:SSZ`. -/
theorem now_iso_isIsoZ (t : DateTime) : isIsoZ (now_iso t) = true := by
  simp only [isIsoZ, now_iso, pad4, pad2]
  simp [digitChar_isDigit]

/-- C1: `validate_payload` fails with exactly the message
"Either imageUrl or imageBase64 must be provided" if and only if both
`imageUrl` and `imageBase64` are falsy (absent or empty); whenever at
least one is truthy — including when both are — it returns successfully
with no output. -/
theorem validate_payload_spec (u b : Option String) :
    (validate_payload u b =
        Except.error "Either imageUrl or imageBase64 must be provided" ↔
      truthy u = false ∧ truthy b = false) ∧
    (truthy u = true ∨ truthy b = true → validate_payload u b = Except.ok ()) := by
  unfold validate_payload
  cases hu : truthy u <;> cases hb : truthy b <;> simp

/-- Witness for C1: with a URL present and no base64, validation succeeds. -/
theorem validate_payload_spec_witness :
    validate_payload (some "https://example.com/plant.jpg") none = Except.ok () :=
  (validate_payload_spec (some "https://example.com/plant.jpg") none).2 (Or.inl rfl)

/-- C2: with no override name, `run_mock_analysis` returns exactly
`id = "analysis_mock_001"`, `status = "completed"`,
`plantName = "Monstera Deliciosa"`, `score = 0.85`, a single issue
`(code yellow_leaf, severity moderate, confidence 0.72)`, and a weather
snapshot with `tempC = 33`, `humidity = 70`, `condition = "sunny"`,
whatever the two observed instants are. -/
theorem run_mock_analysis_default_literals (t1 t2 : DateTime) :
    (run_mock_analysis none t1 t2).lookup "id" = some (Val.vStr "analysis_mock_001") ∧
    (run_mock_analysis none t1 t2).lookup "status" = some (Val.vStr "completed") ∧
    (run_mock_analysis none t1 t2).lookup "plantName" = some (Val.vStr "Monstera Deliciosa") ∧
    (run_mock_analysis none t1 t2).lookup "score" = some (Val.vRat (85/100)) ∧
    (run_mock_analysis none t1 t2).lookup "issues" =
      some (Val.vArr [Val.vObj [("code", Val.vStr "yellow_leaf"),
                                ("severity", Val.vStr "moderate"),
                                ("confidence", Val.vRat (72/100))]]) ∧
    (run_mock_analysis none t1 t2).lookup2 "weatherSnapshot" "tempC" = some (Val.vNat 33) ∧
    (run_mock_analysis none t1 t2).lookup2 "weatherSnapshot" "humidity" = some (Val.vNat 70) ∧
    (run_mock_analysis none t1 t2).lookup2 "weatherSnapshot" "condition" = some (Val.vStr "sunny") :=
  ⟨rfl, rfl, rfl, rfl, rfl, rfl, rfl, rfl⟩

/-- C3: `analyze_image` raises `NotImplementedError` exactly when
`mock_analysis` is false, and under mock mode returns the mock analysis
result (with no override name); it never returns success with mock mode
disabled. -/
theorem analyze_image_mock_flag (mock : Bool) (u b : Option String) (t1 t2 : DateTime) :
    ((analyze_image mock u b t1 t2).2 =
        Except.error "Real model inference not yet implemented" ↔ mock = false) ∧
    (mock = true →
      (analyze_image mock u b t1 t2).2 = Except.ok (run_mock_analysis none t1 t2)) := by
  cases mock <;> simp [analyze_image]

/-- Witness for C3: under mock mode with a base64 payload, the call
returns the mock result. -/
theorem analyze_image_mock_flag_witness :
    (analyze_image true none (some "aGVsbG8=") ⟨2024, 1, 2, 3, 4, 5⟩ ⟨2024, 1, 2, 3, 4, 6⟩).2 =
      Except.ok (run_mock_analysis none ⟨2024, 1, 2, 3, 4, 5⟩ ⟨2024, 1, 2, 3, 4, 6⟩) :=
  (analyze_image_mock_flag true none (some "aGVsbG8=")
    ⟨2024, 1, 2, 3, 4, 5⟩ ⟨2024, 1, 2, 3, 4, 6⟩).2 rfl

/-- C4: under mock mode, two calls of `analyze_image` with any inputs and
observed instants agree on every field once the two timestamp fields
(`weatherSnapshot.capturedAt` and `createdAt`) are blanked; and two calls
observing the same instants return fully identical results, whatever their
image inputs — the result never depends on `image_url` or
`image_base64`. -/
theorem mock_result_independent_of_input (u1 b1 u2 b2 : Option String)
    (t1 t2 s1 s2 : DateTime) :
    (analyze_image true u1 b1 t1 t2).2 = (analyze_image true u2 b2 t1 t2).2 ∧
    Except.map stripTimes (analyze_image true u1 b1 t1 t2).2 =
      Except.map stripTimes (analyze_image true u2 b2 s1 s2).2 :=
  ⟨rfl, rfl⟩

/-- Counterexample for C5: the recommendation entries carry the keys
`id`, `title`, `desc` — not `id`, `title`, `description` as claimed. -/
theorem recommendations_description_cex :
    recKeys (run_mock_analysis none ⟨2024, 1, 1, 0, 0, 0⟩ ⟨2024, 1, 1, 0, 0, 0⟩) =
      some [["id", "title", "desc"], ["id", "title", "desc"]] ∧
    (["id", "title", "desc"] : List String) ≠ ["id", "title", "description"] :=
  ⟨by decide, by decide⟩

/-- C5 (amended): every result of `run_mock_analysis` has a
`recommendations` field that is a sequence of exactly two entries, each an
object with exactly the keys `id`, `title`, `desc`, in that order. -/
theorem recommendations_shape (p : Option String) (t1 t2 : DateTime) :
    recKeys (run_mock_analysis p t1 t2) =
      some [["id", "title", "desc"], ["id", "title", "desc"]] := rfl

/-- C6: both timestamp fields of a mock result are produced by the same
formatting rule `now_iso` — the observed whole-second UTC instant rendered
as an ISO-8601 string with a literal trailing "Z" and no fractional
seconds — and every such string has the shape `YYYY-MM-DDTHH:MM:SSZ`. -/
theorem timestamps_same_rule_iso_format (p : Option String) (t1 t2 : DateTime) :
    (run_mock_analysis p t1 t2).lookup2 "weatherSnapshot" "capturedAt" =
      some (Val.vStr (now_iso t1)) ∧
    (run_mock_analysis p t1 t2).lookup "createdAt" = some (Val.vStr (now_iso t2)) ∧
    isIsoZ (now_iso t1) = true ∧ isIsoZ (now_iso t2) = true :=
  ⟨rfl, rfl, now_iso_isIsoZ t1, now_iso_isIsoZ t2⟩

/-- C7: the health handler returns exactly the fixed envelope
with data.status = ok, empty meta and empty errors (it consults no state,
so no prior request can change it). -/
theorem health_envelope :
    health = Val.vObj [("data", Val.vObj [("status", Val.vStr "ok")]),
                       ("meta", Val.vObj []),
                       ("errors", Val.vArr [])] := rfl

/-- C8: the log record emitted by `analyze_image` is the fixed message
plus the two presence booleans, so it depends only on
`bool(image_url)` and `bool(image_base64)`: any two calls whose inputs
have the same presence pattern emit identical records, and no payload
content occurs in the record. -/
theorem log_presence_only (m1 m2 : Bool) (u1 b1 u2 b2 : Option String)
    (t1 t2 s1 s2 : DateTime)
    (hu : truthy u1 = truthy u2) (hb : truthy b1 = truthy b2) :
    (analyze_image m1 u1 b1 t1 t2).1 =
      ⟨"Received analysis request", truthy u1, truthy b1⟩ ∧
    (analyze_image m1 u1 b1 t1 t2).1 = (analyze_image m2 u2 b2 s1 s2).1 :=
  ⟨rfl, by simp [analyze_image, hu, hb]⟩

/-- Witness for C8: a mock-mode call with one URL and a disabled-mode call
with a different URL and an empty base64 string emit the same record. -/
theorem log_presence_only_witness :
    (analyze_image true (some "https://a.example/x.jpg") none
        ⟨2024, 1, 1, 0, 0, 0⟩ ⟨2024, 1, 1, 0, 0, 1⟩).1 =
      ⟨"Received analysis request", true, false⟩ ∧
    (analyze_image true (some "https://a.example/x.jpg") none
        ⟨2024, 1, 1, 0, 0, 0⟩ ⟨2024, 1, 1, 0, 0, 1⟩).1 =
      (analyze_image false (some "https://b.example/y.png") (some "")
        ⟨2025, 6, 7, 8, 9, 10⟩ ⟨2025, 6, 7, 8, 9, 11⟩).1 :=
  log_presence_only true false (some "https://a.example/x.jpg") none
    (some "https://b.example/y.png") (some "")
    ⟨2024, 1, 1, 0, 0, 0⟩ ⟨2024, 1, 1, 0, 0, 1⟩
    ⟨2025, 6, 7, 8, 9, 10⟩ ⟨2025, 6, 7, 8, 9, 11⟩ rfl rfl

/-- C9: `run_mock_analysis` falls back to "Monstera Deliciosa" for every
falsy override — both the absent name and the empty string — and uses the
supplied name exactly when it is a non-empty string. -/
theorem plant_name_falsy_default (t1 t2 : DateTime) (s : String) (hs : s ≠ "") :
    (run_mock_analysis none t1 t2).lookup "plantName" =
      some (Val.vStr "Monstera Deliciosa") ∧
    (run_mock_analysis (some "") t1 t2).lookup "plantName" =
      some (Val.vStr "Monstera Deliciosa") ∧
    (run_mock_analysis (some s) t1 t2).lookup "plantName" = some (Val.vStr s) := by
  refine ⟨rfl, rfl, ?_⟩
  have h1 : (run_mock_analysis (some s) t1 t2).lookup "plantName" =
      some (Val.vStr (pyOr (some s) "Monstera Deliciosa")) := rfl
  rw [h1]
  simp [pyOr, hs]

/-- Witness for C9: the non-empty override "Ficus" is used as given. -/
theorem plant_name_falsy_default_witness :
    (run_mock_analysis (some "Ficus") ⟨2024, 1, 1, 0, 0, 0⟩ ⟨2024, 1, 1, 0, 0, 0⟩).lookup
      "plantName" = some (Val.vStr "Ficus") :=
  (plant_name_falsy_default ⟨2024, 1, 1, 0, 0, 0⟩ ⟨2024, 1, 1, 0, 0, 0⟩ "Ficus"
    (by decide)).2.2

/-- C10: for every override name, the dict returned by `run_mock_analysis`
has exactly the eight keys of the `AnalyzeResponse` model, in declaration
order, with values fitting the declared field types — so the handler's
keyword expansion into `AnalyzeResponse` always succeeds. -/
theorem mock_result_matches_response_model (p : Option String) (t1 t2 : DateTime) :
    Val.keys (run_mock_analysis p t1 t2) = AnalyzeResponseFields ∧
    analyzeResponseAccepts (run_mock_analysis p t1 t2) = true :=
  ⟨rfl, rfl⟩
